import Mathlib

/-!
Shallow embedding of the environmental-safety and production-target scheduler
of backend/app/scheduler.py (class SchedulerManager), together with theorems
checking the specification's claims against it.

Modelling conventions:
* All scheduler state is keyed by device id in the source; devices are fully
  independent (every dictionary is read and written only at the key of the
  device being checked), so we embed the state of one device as a record
  DeviceState and each method as a pure function on it.  All public methods
  begin with init_device, so DeviceState models the state of an initialized
  device; initState is the state produced by init_device.
* Python floats (sensor values, thresholds, wall-clock seconds) are embedded
  as rationals; wall-clock reads (time.time(), datetime.now()) become an
  explicit parameter now.
* The action dicts built by the source become the record SchedAction; the
  optional param_type key (present only for environmental pause actions)
  becomes an Option field.
* The registered action callback does not touch scheduler state; the pure
  check functions below drop the dispatch.  A second family of functions
  (suffix Exc) re-embeds the same source code tracking whether the awaited
  callback raises: the Except value is .error () exactly when the exception
  escapes the check call, and the returned DeviceState is the state at that
  moment.
-/

/-- A schedule rule, embedding dataclass ScheduleRule of scheduler.py. -/
structure ScheduleRule where
  id : String
  name : String
  enabled : Bool := true
  rule_type : String := "temperature"
  condition : String := "out_of_range"
  threshold_min : ℚ := 0
  threshold_max : ℚ := 100
  action : String := "pause"
  action_params : List (String × String) := []
  cooldown : ℚ := 10
  last_triggered : ℚ := 0
deriving Repr, DecidableEq, Inhabited

/-- A production plan, embedding dataclass ProductionPlan of scheduler.py.
start_time and end_time are wall-clock instants in seconds. -/
structure ProductionPlan where
  device_id : String
  target_count : Int := 0
  start_time : Option ℚ := none
  end_time : Option ℚ := none
  auto_stop_on_complete : Bool := true
  auto_switch_mode : Option String := none
deriving Repr, DecidableEq, Inhabited

/-- The per-device thresholds dictionary.  The source stores an arbitrary
dict and reads the six keys below with .get and a default; update_thresholds
may install a dict missing some keys, hence the Option fields. -/
structure Thresholds where
  tempMin : Option ℚ := some 10
  tempMax : Option ℚ := some 35
  humidityMin : Option ℚ := some 20
  humidityMax : Option ℚ := some 80
  pressureMin : Option ℚ := some 90
  pressureMax : Option ℚ := some 110
deriving Repr, DecidableEq, Inhabited

/-- The action dictionary handed to the callback and returned by checks. -/
structure SchedAction where
  rule_id : String
  rule_name : String
  action : String
  params : List (String × String)
  reason : String
  param_type : Option String := none
deriving Repr, DecidableEq, Inhabited

/-- The scheduler state of one (initialized) device: the slice of every
SchedulerManager dictionary at that device id. -/
structure DeviceState where
  device_id : String
  rules : List ScheduleRule
  plan : Option ProductionPlan
  thresholds : Thresholds
  paused_by_scheduler : Bool
  pause_reasons : List String
  temp_out_of_range : Bool
  humidity_out_of_range : Bool
  pressure_out_of_range : Bool
  temp_history : List ℚ
  humidity_history : List ℚ
  pressure_history : List ℚ
  last_check_time : ℚ
deriving Repr, DecidableEq, Inhabited

/-- The five default rules installed by init_device. -/
def defaultRules : List ScheduleRule :=
  [ { id := "temp_danger_pause", name := "温度超限自动停止", enabled := true,
      rule_type := "temperature", condition := "out_of_range",
      threshold_min := 10, threshold_max := 35, action := "pause", cooldown := 10 },
    { id := "humidity_danger_pause", name := "湿度超限自动停止", enabled := true,
      rule_type := "humidity", condition := "out_of_range",
      threshold_min := 20, threshold_max := 80, action := "pause", cooldown := 10 },
    { id := "pressure_danger_pause", name := "压力超限自动停止", enabled := true,
      rule_type := "pressure", condition := "out_of_range",
      threshold_min := 90, threshold_max := 110, action := "pause", cooldown := 10 },
    { id := "production_complete", name := "产量达标自动停止", enabled := true,
      rule_type := "production", condition := "gte",
      threshold_min := 0, threshold_max := 0, action := "stop", cooldown := 5 },
    { id := "all_normal_start", name := "全部正常自动启动", enabled := true,
      rule_type := "all_normal_recover", condition := "all_normal",
      threshold_min := 0, threshold_max := 0, action := "start", cooldown := 10 } ]

/-- The device state right after init_device (no plan has been set yet). -/
def initState (device_id : String) : DeviceState :=
  { device_id := device_id
    rules := defaultRules
    plan := none
    thresholds := {}
    paused_by_scheduler := false
    pause_reasons := []
    temp_out_of_range := false
    humidity_out_of_range := false
    pressure_out_of_range := false
    temp_history := []
    humidity_history := []
    pressure_history := []
    last_check_time := 0 }

/-- Embeds SchedulerManager._is_out_of_range. -/
def isOutOfRangeVal (value min_val max_val : ℚ) : Bool :=
  value < min_val || value > max_val

/-- Embeds SchedulerManager._add_history with its default max_len = 5:
append, then pop the front while over capacity (at most once per call). -/
def addHistory (history : List ℚ) (value : ℚ) : List ℚ :=
  let h := history ++ [value]
  if h.length > 5 then h.drop 1 else h

/-- Embeds SchedulerManager._is_stable_normal with its default
required_count = 3: false below 3 entries, otherwise the last 3 entries must
all lie in the inclusive range. -/
def isStableNormal (history : List ℚ) (min_val max_val : ℚ) : Bool :=
  if history.length < 3 then false
  else (history.drop (history.length - 3)).all (fun v => min_val ≤ v && v ≤ max_val)

/-- Embeds SchedulerManager._get_rule: first rule with the given id. -/
def getRule (rules : List ScheduleRule) (rule_id : String) : Option ScheduleRule :=
  rules.find? (fun r => r.id == rule_id)

/-- Applies f to the first rule with the given id, like the source's pattern
of mutating the object returned by _get_rule in place. -/
def updateFirstRule (rules : List ScheduleRule) (rule_id : String)
    (f : ScheduleRule → ScheduleRule) : List ScheduleRule :=
  match rules with
  | [] => []
  | r :: rest =>
    if r.id == rule_id then f r :: rest
    else r :: updateFirstRule rest rule_id f

/-- The f-string reason of check_temperature. -/
def tempReason (temperature temp_min temp_max : ℚ) : String :=
  s!"温度 {temperature}°C 超出范围 [{temp_min}, {temp_max}]°C"

/-- The f-string reason of check_humidity. -/
def humidityReason (humidity humidity_min humidity_max : ℚ) : String :=
  s!"湿度 {humidity}% 超出范围 [{humidity_min}, {humidity_max}]%"

/-- The f-string reason of check_pressure. -/
def pressureReason (pressure pressure_min pressure_max : ℚ) : String :=
  s!"压力 {pressure}kPa 超出范围 [{pressure_min}, {pressure_max}]kPa"

/-- The f-string reason of check_production. -/
def prodReason (current_count target_count : Int) : String :=
  s!"产量达到目标 {current_count}/{target_count}"

/-- Embeds SchedulerManager._trigger_pause (pure part: the state is mutated
before the callback is awaited, and the action dict is returned). -/
def triggerPause (s : DeviceState) (rule : ScheduleRule) (reason : String)
    (param_type : String) : DeviceState × Option SchedAction :=
  let s := if s.pause_reasons.contains reason then s
           else { s with pause_reasons := s.pause_reasons ++ [reason] }
  let s := { s with paused_by_scheduler := true }
  (s, some { rule_id := rule.id, rule_name := rule.name, action := rule.action,
             params := rule.action_params, reason := reason,
             param_type := some param_type })

/-- Embeds SchedulerManager._check_all_normal (pure part). -/
def checkAllNormal (s : DeviceState) (now : ℚ) : DeviceState × Option SchedAction :=
  if !s.paused_by_scheduler then (s, none)
  else
    match getRule s.rules "all_normal_start" with
    | none => (s, none)
    | some rule =>
      if !rule.enabled then (s, none)
      else if now - rule.last_triggered < rule.cooldown then (s, none)
      else
        let any_out_of_range := s.temp_out_of_range || s.humidity_out_of_range ||
          s.pressure_out_of_range
        if any_out_of_range then (s, none)
        else
          let temp_stable := isStableNormal s.temp_history
            (s.thresholds.tempMin.getD 10) (s.thresholds.tempMax.getD 35)
          let humidity_stable := isStableNormal s.humidity_history
            (s.thresholds.humidityMin.getD 20) (s.thresholds.humidityMax.getD 80)
          let pressure_stable := isStableNormal s.pressure_history
            (s.thresholds.pressureMin.getD 90) (s.thresholds.pressureMax.getD 110)
          let temp_stable := if s.temp_history.length == 0 then true else temp_stable
          let humidity_stable := if s.humidity_history.length == 0 then true else humidity_stable
          let pressure_stable := if s.pressure_history.length == 0 then true else pressure_stable
          if !(temp_stable && humidity_stable && pressure_stable) then (s, none)
          else
            let s := { s with
              rules := (updateFirstRule s.rules "all_normal_start"
                (fun r => { r with last_triggered := now }))
              paused_by_scheduler := false
              pause_reasons := [] }
            (s, some { rule_id := rule.id, rule_name := rule.name,
                       action := rule.action, params := rule.action_params,
                       reason := "所有环境参数恢复正常" })

/-- Embeds SchedulerManager.check_temperature (pure part). -/
def checkTemperature (s : DeviceState) (now : ℚ) (temperature : ℚ) :
    DeviceState × Option SchedAction :=
  let s := { s with temp_history := addHistory s.temp_history temperature }
  let temp_min := s.thresholds.tempMin.getD 10
  let temp_max := s.thresholds.tempMax.getD 35
  let is_out := isOutOfRangeVal temperature temp_min temp_max
  let was_out := s.temp_out_of_range
  let s := { s with temp_out_of_range := is_out }
  match getRule s.rules "temp_danger_pause" with
  | none => checkAllNormal s now
  | some rule =>
    if !rule.enabled then checkAllNormal s now
    else if now - rule.last_triggered < rule.cooldown then checkAllNormal s now
    else if is_out && !was_out then
      let s := { s with rules := (updateFirstRule s.rules "temp_danger_pause"
        (fun r => { r with last_triggered := now })) }
      triggerPause s rule (tempReason temperature temp_min temp_max) "temperature"
    else checkAllNormal s now

/-- Embeds SchedulerManager.check_humidity (pure part). -/
def checkHumidity (s : DeviceState) (now : ℚ) (humidity : ℚ) :
    DeviceState × Option SchedAction :=
  let s := { s with humidity_history := addHistory s.humidity_history humidity }
  let humidity_min := s.thresholds.humidityMin.getD 20
  let humidity_max := s.thresholds.humidityMax.getD 80
  let is_out := isOutOfRangeVal humidity humidity_min humidity_max
  let was_out := s.humidity_out_of_range
  let s := { s with humidity_out_of_range := is_out }
  match getRule s.rules "humidity_danger_pause" with
  | none => checkAllNormal s now
  | some rule =>
    if !rule.enabled then checkAllNormal s now
    else if now - rule.last_triggered < rule.cooldown then checkAllNormal s now
    else if is_out && !was_out then
      let s := { s with rules := (updateFirstRule s.rules "humidity_danger_pause"
        (fun r => { r with last_triggered := now })) }
      triggerPause s rule (humidityReason humidity humidity_min humidity_max) "humidity"
    else checkAllNormal s now

/-- Embeds SchedulerManager.check_pressure (pure part). -/
def checkPressure (s : DeviceState) (now : ℚ) (pressure : ℚ) :
    DeviceState × Option SchedAction :=
  let s := { s with pressure_history := addHistory s.pressure_history pressure }
  let pressure_min := s.thresholds.pressureMin.getD 90
  let pressure_max := s.thresholds.pressureMax.getD 110
  let is_out := isOutOfRangeVal pressure pressure_min pressure_max
  let was_out := s.pressure_out_of_range
  let s := { s with pressure_out_of_range := is_out }
  match getRule s.rules "pressure_danger_pause" with
  | none => checkAllNormal s now
  | some rule =>
    if !rule.enabled then checkAllNormal s now
    else if now - rule.last_triggered < rule.cooldown then checkAllNormal s now
    else if is_out && !was_out then
      let s := { s with rules := (updateFirstRule s.rules "pressure_danger_pause"
        (fun r => { r with last_triggered := now })) }
      triggerPause s rule (pressureReason pressure pressure_min pressure_max) "pressure"
    else checkAllNormal s now

/-- Embeds SchedulerManager.check_production (pure part). -/
def checkProduction (s : DeviceState) (now : ℚ) (current_count : Int) :
    DeviceState × Option SchedAction :=
  match s.plan with
  | none => (s, none)
  | some plan =>
    if plan.target_count ≤ 0 then (s, none)
    else
      match getRule s.rules "production_complete" with
      | none => (s, none)
      | some rule =>
        if !rule.enabled then (s, none)
        else if now - rule.last_triggered < rule.cooldown then (s, none)
        else if current_count ≥ plan.target_count then
          let s := { s with rules := (updateFirstRule s.rules "production_complete"
            (fun r => { r with last_triggered := now })) }
          let act : SchedAction :=
            { rule_id := rule.id, rule_name := rule.name,
              action := if plan.auto_stop_on_complete then "stop" else "none",
              params := [],
              reason := prodReason current_count plan.target_count }
          let act := match plan.auto_switch_mode with
            | some m => if m = "" then act
                        else { act with action := "switch_mode", params := [("mode", m)] }
            | none => act
          (s, some act)
        else (s, none)

/-- Embeds SchedulerManager.clear_scheduler_pause. -/
def clearSchedulerPause (s : DeviceState) : DeviceState :=
  { s with paused_by_scheduler := false, pause_reasons := [] }

/-- Embeds SchedulerManager.set_production_plan (returns the new plan too). -/
def setProductionPlan (s : DeviceState) (now : ℚ) (target_count : Int)
    (auto_stop : Bool) (auto_switch_mode : Option String) :
    DeviceState × ProductionPlan :=
  let plan : ProductionPlan :=
    { device_id := s.device_id, target_count := target_count,
      start_time := some now, end_time := none,
      auto_stop_on_complete := auto_stop, auto_switch_mode := auto_switch_mode }
  let s := { s with plan := some plan }
  let s := { s with rules := (updateFirstRule s.rules "production_complete"
    (fun r => { r with threshold_max := (target_count : ℚ),
                       enabled := decide (target_count > 0) })) }
  (s, plan)

/-- Embeds SchedulerManager.clear_production_plan. -/
def clearProductionPlan (s : DeviceState) : DeviceState :=
  let s := { s with plan := none }
  { s with rules := (updateFirstRule s.rules "production_complete"
    (fun r => { r with enabled := false })) }

/-- Embeds SchedulerManager.update_thresholds: replace the thresholds record
and push the new min/max onto the three environmental rules (the source loops
over every rule, so every rule whose id matches is updated). -/
def updateThresholds (s : DeviceState) (t : Thresholds) : DeviceState :=
  { s with thresholds := t
           rules := s.rules.map (fun r =>
             if r.id == "temp_danger_pause" then
               { r with threshold_min := t.tempMin.getD 10, threshold_max := t.tempMax.getD 35 }
             else if r.id == "humidity_danger_pause" then
               { r with threshold_min := t.humidityMin.getD 20, threshold_max := t.humidityMax.getD 80 }
             else if r.id == "pressure_danger_pause" then
               { r with threshold_min := t.pressureMin.getD 90, threshold_max := t.pressureMax.getD 110 }
             else r) }

/-- One entry of the keyword-argument patch passed to update_rule.  A known
constructor corresponds to a dataclass field of ScheduleRule (setattr hits
it because hasattr is true); unknown models any other key, which hasattr
rejects so setattr is skipped. -/
inductive PatchField where
  | enabled (b : Bool)
  | threshold_min (q : ℚ)
  | threshold_max (q : ℚ)
  | cooldown (q : ℚ)
  | name (v : String)
  | rule_type (v : String)
  | condition (v : String)
  | action (v : String)
  | action_params (v : List (String × String))
  | last_triggered (q : ℚ)
  | unknown (key : String)
deriving Repr, DecidableEq

/-- setattr for one recognized patch entry; unknown keys are skipped. -/
def applyPatchField (r : ScheduleRule) : PatchField → ScheduleRule
  | .enabled b => { r with enabled := b }
  | .threshold_min q => { r with threshold_min := q }
  | .threshold_max q => { r with threshold_max := q }
  | .cooldown q => { r with cooldown := q }
  | .name v => { r with name := v }
  | .rule_type v => { r with rule_type := v }
  | .condition v => { r with condition := v }
  | .action v => { r with action := v }
  | .action_params v => { r with action_params := v }
  | .last_triggered q => { r with last_triggered := q }
  | .unknown _ => r

/-- True on patch entries naming an existing dataclass field. -/
def PatchField.isKnown : PatchField → Bool
  | .unknown _ => false
  | _ => true

/-- Embeds SchedulerManager.update_rule: find the rule, apply every
recognized field of the patch to it, return success; unknown rule ids
return failure with the state untouched. -/
def updateRule (s : DeviceState) (rule_id : String) (patch : List PatchField) :
    DeviceState × Bool :=
  match getRule s.rules rule_id with
  | some _ =>
    ({ s with rules := (updateFirstRule s.rules rule_id
       (fun r => patch.foldl applyPatchField r)) }, true)
  | none => (s, false)

/-- The result dictionary of SchedulerManager.get_plan_progress.  The source
formats estimated_time as a wall-clock string; we keep the underlying
completion instant (now + remaining_seconds) in seconds. -/
structure PlanProgress where
  has_plan : Bool
  target : Int
  current : Int
  progress : ℚ
  remaining : Int
  estimated_time : Option ℚ
deriving Repr, DecidableEq, Inhabited

/-- Python's round-half-to-even on an exact rational. -/
def pyRound (x : ℚ) : ℤ :=
  let f := ⌊x⌋
  let frac := x - f
  if frac < 1/2 then f
  else if 1/2 < frac then f + 1
  else if f % 2 = 0 then f else f + 1

/-- round(x, 1): round to one decimal digit, ties to even. -/
def round1 (x : ℚ) : ℚ := (pyRound (10 * x) : ℚ) / 10

/-- Embeds SchedulerManager.get_plan_progress.  The source divides
current_count by elapsed seconds with no positivity guard; when elapsed is
exactly zero Python raises ZeroDivisionError, embedded as .error (). -/
def getPlanProgress (s : DeviceState) (now : ℚ) (current_count : Int) :
    Except Unit PlanProgress :=
  match s.plan with
  | none =>
    .ok { has_plan := false, target := 0, current := current_count,
          progress := 0, remaining := 0, estimated_time := none }
  | some plan =>
    if plan.target_count ≤ 0 then
      .ok { has_plan := false, target := 0, current := current_count,
            progress := 0, remaining := 0, estimated_time := none }
    else
      let progress : ℚ := min 100 (((current_count : ℚ) / (plan.target_count : ℚ)) * 100)
      let remaining : Int := max 0 (plan.target_count - current_count)
      match plan.start_time with
      | some st =>
        if current_count > 0 ∧ progress < 100 then
          let elapsed := now - st
          if elapsed = 0 then .error ()
          else
            let rate := (current_count : ℚ) / elapsed
            let estimated_time : Option ℚ :=
              if rate > 0 then some (now + (remaining : ℚ) / rate) else none
            .ok { has_plan := true, target := plan.target_count,
                  current := current_count, progress := round1 progress,
                  remaining := remaining, estimated_time := estimated_time }
        else
          .ok { has_plan := true, target := plan.target_count,
                current := current_count, progress := round1 progress,
                remaining := remaining, estimated_time := none }
      | none =>
        .ok { has_plan := true, target := plan.target_count,
              current := current_count, progress := round1 progress,
              remaining := remaining, estimated_time := none }

/-- Re-embedding of _trigger_pause that tracks the awaited callback: per the
source, pause_reasons and paused_by_scheduler are mutated first, then the
callback is awaited; an exception raised by the callback escapes (there is
no try/except around the await), modelled by .error () with the state at
that moment. -/
def triggerPauseExc (cbRaises : Bool) (s : DeviceState) (rule : ScheduleRule)
    (reason : String) (param_type : String) :
    DeviceState × Except Unit (Option SchedAction) :=
  let s := if s.pause_reasons.contains reason then s
           else { s with pause_reasons := s.pause_reasons ++ [reason] }
  let s := { s with paused_by_scheduler := true }
  if cbRaises then (s, .error ())
  else (s, .ok (some { rule_id := rule.id, rule_name := rule.name,
                       action := rule.action, params := rule.action_params,
                       reason := reason, param_type := some param_type }))

/-- Re-embedding of _check_all_normal tracking the awaited callback: the
rule stamp and the pause-state reset happen before the await, and a raised
exception escapes the call. -/
def checkAllNormalExc (cbRaises : Bool) (s : DeviceState) (now : ℚ) :
    DeviceState × Except Unit (Option SchedAction) :=
  if !s.paused_by_scheduler then (s, .ok none)
  else
    match getRule s.rules "all_normal_start" with
    | none => (s, .ok none)
    | some rule =>
      if !rule.enabled then (s, .ok none)
      else if now - rule.last_triggered < rule.cooldown then (s, .ok none)
      else
        let any_out_of_range := s.temp_out_of_range || s.humidity_out_of_range ||
          s.pressure_out_of_range
        if any_out_of_range then (s, .ok none)
        else
          let temp_stable := isStableNormal s.temp_history
            (s.thresholds.tempMin.getD 10) (s.thresholds.tempMax.getD 35)
          let humidity_stable := isStableNormal s.humidity_history
            (s.thresholds.humidityMin.getD 20) (s.thresholds.humidityMax.getD 80)
          let pressure_stable := isStableNormal s.pressure_history
            (s.thresholds.pressureMin.getD 90) (s.thresholds.pressureMax.getD 110)
          let temp_stable := if s.temp_history.length == 0 then true else temp_stable
          let humidity_stable := if s.humidity_history.length == 0 then true else humidity_stable
          let pressure_stable := if s.pressure_history.length == 0 then true else pressure_stable
          if !(temp_stable && humidity_stable && pressure_stable) then (s, .ok none)
          else
            let s := { s with
              rules := (updateFirstRule s.rules "all_normal_start"
                (fun r => { r with last_triggered := now }))
              paused_by_scheduler := false
              pause_reasons := [] }
            if cbRaises then (s, .error ())
            else (s, .ok (some { rule_id := rule.id, rule_name := rule.name,
                                 action := rule.action, params := rule.action_params,
                                 reason := "所有环境参数恢复正常" }))

/-- Re-embedding of check_temperature tracking the awaited callback. -/
def checkTemperatureExc (cbRaises : Bool) (s : DeviceState) (now : ℚ)
    (temperature : ℚ) : DeviceState × Except Unit (Option SchedAction) :=
  let s := { s with temp_history := addHistory s.temp_history temperature }
  let temp_min := s.thresholds.tempMin.getD 10
  let temp_max := s.thresholds.tempMax.getD 35
  let is_out := isOutOfRangeVal temperature temp_min temp_max
  let was_out := s.temp_out_of_range
  let s := { s with temp_out_of_range := is_out }
  match getRule s.rules "temp_danger_pause" with
  | none => checkAllNormalExc cbRaises s now
  | some rule =>
    if !rule.enabled then checkAllNormalExc cbRaises s now
    else if now - rule.last_triggered < rule.cooldown then checkAllNormalExc cbRaises s now
    else if is_out && !was_out then
      let s := { s with rules := (updateFirstRule s.rules "temp_danger_pause"
        (fun r => { r with last_triggered := now })) }
      triggerPauseExc cbRaises s rule (tempReason temperature temp_min temp_max) "temperature"
    else checkAllNormalExc cbRaises s now

/-- Re-embedding of check_humidity tracking the awaited callback. -/
def checkHumidityExc (cbRaises : Bool) (s : DeviceState) (now : ℚ)
    (humidity : ℚ) : DeviceState × Except Unit (Option SchedAction) :=
  let s := { s with humidity_history := addHistory s.humidity_history humidity }
  let humidity_min := s.thresholds.humidityMin.getD 20
  let humidity_max := s.thresholds.humidityMax.getD 80
  let is_out := isOutOfRangeVal humidity humidity_min humidity_max
  let was_out := s.humidity_out_of_range
  let s := { s with humidity_out_of_range := is_out }
  match getRule s.rules "humidity_danger_pause" with
  | none => checkAllNormalExc cbRaises s now
  | some rule =>
    if !rule.enabled then checkAllNormalExc cbRaises s now
    else if now - rule.last_triggered < rule.cooldown then checkAllNormalExc cbRaises s now
    else if is_out && !was_out then
      let s := { s with rules := (updateFirstRule s.rules "humidity_danger_pause"
        (fun r => { r with last_triggered := now })) }
      triggerPauseExc cbRaises s rule (humidityReason humidity humidity_min humidity_max) "humidity"
    else checkAllNormalExc cbRaises s now

/-- Re-embedding of check_pressure tracking the awaited callback. -/
def checkPressureExc (cbRaises : Bool) (s : DeviceState) (now : ℚ)
    (pressure : ℚ) : DeviceState × Except Unit (Option SchedAction) :=
  let s := { s with pressure_history := addHistory s.pressure_history pressure }
  let pressure_min := s.thresholds.pressureMin.getD 90
  let pressure_max := s.thresholds.pressureMax.getD 110
  let is_out := isOutOfRangeVal pressure pressure_min pressure_max
  let was_out := s.pressure_out_of_range
  let s := { s with pressure_out_of_range := is_out }
  match getRule s.rules "pressure_danger_pause" with
  | none => checkAllNormalExc cbRaises s now
  | some rule =>
    if !rule.enabled then checkAllNormalExc cbRaises s now
    else if now - rule.last_triggered < rule.cooldown then checkAllNormalExc cbRaises s now
    else if is_out && !was_out then
      let s := { s with rules := (updateFirstRule s.rules "pressure_danger_pause"
        (fun r => { r with last_triggered := now })) }
      triggerPauseExc cbRaises s rule (pressureReason pressure pressure_min pressure_max) "pressure"
    else checkAllNormalExc cbRaises s now

/-- Re-embedding of check_production tracking the awaited callback. -/
def checkProductionExc (cbRaises : Bool) (s : DeviceState) (now : ℚ)
    (current_count : Int) : DeviceState × Except Unit (Option SchedAction) :=
  match s.plan with
  | none => (s, .ok none)
  | some plan =>
    if plan.target_count ≤ 0 then (s, .ok none)
    else
      match getRule s.rules "production_complete" with
      | none => (s, .ok none)
      | some rule =>
        if !rule.enabled then (s, .ok none)
        else if now - rule.last_triggered < rule.cooldown then (s, .ok none)
        else if current_count ≥ plan.target_count then
          let s := { s with rules := (updateFirstRule s.rules "production_complete"
            (fun r => { r with last_triggered := now })) }
          let act : SchedAction :=
            { rule_id := rule.id, rule_name := rule.name,
              action := if plan.auto_stop_on_complete then "stop" else "none",
              params := [],
              reason := prodReason current_count plan.target_count }
          let act := match plan.auto_switch_mode with
            | some m => if m = "" then act
                        else { act with action := "switch_mode", params := [("mode", m)] }
            | none => act
          if cbRaises then (s, .error ())
          else (s, .ok (some act))
        else (s, .ok none)

/-- One call into the scheduler, with the wall-clock instant it happens at
(the source reads time.time() or datetime.now() inside the call). -/
inductive Op where
  | checkTemp (now value : ℚ)
  | checkHum (now value : ℚ)
  | checkPress (now value : ℚ)
  | checkProd (now : ℚ) (count : Int)
  | clearPause
  | setThresholds (t : Thresholds)
  | patchRule (rid : String) (patch : List PatchField)
  | setPlan (now : ℚ) (target : Int) (auto_stop : Bool) (mode : Option String)
  | clearPlan
deriving Repr, DecidableEq

/-- Effect of one scheduler call on the device state, with the action the
call returns or dispatches (None for the configuration calls). -/
def step (s : DeviceState) : Op → DeviceState × Option SchedAction
  | .checkTemp now v => checkTemperature s now v
  | .checkHum now v => checkHumidity s now v
  | .checkPress now v => checkPressure s now v
  | .checkProd now c => checkProduction s now c
  | .clearPause => (clearSchedulerPause s, none)
  | .setThresholds t => (updateThresholds s t, none)
  | .patchRule rid p => ((updateRule s rid p).1, none)
  | .setPlan now tc st m => ((setProductionPlan s now tc st m).1, none)
  | .clearPlan => (clearProductionPlan s, none)

/-- The three environmental check calls of the claim statements. -/
def Op.isEnvCheck : Op → Bool
  | .checkTemp _ _ | .checkHum _ _ | .checkPress _ _ => true
  | _ => false

/-- The four evaluation calls (environmental checks and production check). -/
def Op.isCheck : Op → Bool
  | .checkTemp _ _ | .checkHum _ _ | .checkPress _ _ | .checkProd _ _ => true
  | _ => false

/-- The wall-clock instant a call happens at. -/
def Op.time : Op → ℚ
  | .checkTemp now _ => now
  | .checkHum now _ => now
  | .checkPress now _ => now
  | .checkProd now _ => now
  | .setPlan now _ _ _ => now
  | _ => 0

/-- Run a sequence of calls, recording for each the state it entered with
and the action it emitted. -/
def runTrace (s : DeviceState) : List Op → List (DeviceState × Option SchedAction)
  | [] => []
  | op :: ops => (s, (step s op).2) :: runTrace (step s op).1 ops

example : addHistory [1, 2, 3, 4, 5] 6 = [2, 3, 4, 5, 6] := by decide
example : isStableNormal [50, 20, 20, 20] 10 35 = true := by decide
example : isStableNormal [20] 10 35 = false := by decide
example : (checkTemperature (initState "dev") 100 40).2 =
    some { rule_id := "temp_danger_pause", rule_name := "温度超限自动停止",
           action := "pause", params := [],
           reason := "温度 40°C 超出范围 [10, 35]°C",
           param_type := some "temperature" } := by
  norm_num [checkTemperature, initState, defaultRules, getRule, addHistory,
    isOutOfRangeVal, triggerPause, checkAllNormal, updateFirstRule, List.find?]
  rfl

/-! ### Statement abbreviations naming the states and actions built inside
_check_all_normal and the check functions -/

/-- The state after the autonomous-resume branch of _check_all_normal. -/
def resumedState (s : DeviceState) (now : ℚ) : DeviceState :=
  { s with rules := (updateFirstRule s.rules "all_normal_start"
                      (fun r => { r with last_triggered := now }))
           paused_by_scheduler := false
           pause_reasons := [] }

/-- The start action built by the autonomous-resume branch. -/
def resumeActionOf (rule : ScheduleRule) : SchedAction :=
  { rule_id := rule.id, rule_name := rule.name, action := rule.action,
    params := rule.action_params, reason := "所有环境参数恢复正常" }

/-- Lower temperature threshold read by check_temperature (with the .get
default). -/
def tempMinOf (s : DeviceState) : ℚ := s.thresholds.tempMin.getD 10

/-- Upper temperature threshold read by check_temperature. -/
def tempMaxOf (s : DeviceState) : ℚ := s.thresholds.tempMax.getD 35

/-- Lower humidity threshold read by check_humidity. -/
def humidityMinOf (s : DeviceState) : ℚ := s.thresholds.humidityMin.getD 20

/-- Upper humidity threshold read by check_humidity. -/
def humidityMaxOf (s : DeviceState) : ℚ := s.thresholds.humidityMax.getD 80

/-- Lower pressure threshold read by check_pressure. -/
def pressureMinOf (s : DeviceState) : ℚ := s.thresholds.pressureMin.getD 90

/-- Upper pressure threshold read by check_pressure. -/
def pressureMaxOf (s : DeviceState) : ℚ := s.thresholds.pressureMax.getD 110

/-- The state after the history append and out-of-range update at the top of
check_temperature. -/
def tempEntry (s : DeviceState) (v : ℚ) : DeviceState :=
  { s with temp_history := addHistory s.temp_history v
           temp_out_of_range := isOutOfRangeVal v (tempMinOf s) (tempMaxOf s) }

/-- The state after the history append and out-of-range update at the top of
check_humidity. -/
def humidityEntry (s : DeviceState) (v : ℚ) : DeviceState :=
  { s with humidity_history := addHistory s.humidity_history v
           humidity_out_of_range := isOutOfRangeVal v (humidityMinOf s) (humidityMaxOf s) }

/-- The state after the history append and out-of-range update at the top of
check_pressure. -/
def pressureEntry (s : DeviceState) (v : ℚ) : DeviceState :=
  { s with pressure_history := addHistory s.pressure_history v
           pressure_out_of_range := isOutOfRangeVal v (pressureMinOf s) (pressureMaxOf s) }

/-- A scheduler-paused device with 3 in-range temperature readings, a single
in-range humidity reading, no pressure history, no out-of-range flag, all
rules at their defaults (recovery rule enabled, cooldown 10, never
triggered). -/
def shortHistState : DeviceState :=
  { initState "dev" with
      paused_by_scheduler := true
      temp_history := [20, 20, 20]
      humidity_history := [50] }


/-- The pause action emitted by check_temperature(100, 40) on a fresh
device (used by witnesses below). -/
def cdwAction : SchedAction :=
  { rule_id := "temp_danger_pause", rule_name := "温度超限自动停止",
    action := "pause", params := [], reason := tempReason 40 10 35,
    param_type := some "temperature" }

/-- The environmental pause rules never carry the start action: this holds
for the default rule set and is preserved by check calls (which only stamp
last_triggered). -/
def envRulesNoStart (s : DeviceState) : Prop :=
  ∀ r ∈ s.rules, (r.id = "temp_danger_pause" ∨ r.id = "humidity_danger_pause" ∨
    r.id = "pressure_danger_pause") → r.action ≠ "start"

/-- Along a trace, every emitted start action happens at a step whose entry
state is scheduler-paused. -/
def startGated (s : DeviceState) (ops : List Op) : Prop :=
  ∀ p ∈ runTrace s ops, ∀ a, p.2 = some a → a.action = "start" →
    p.1.paused_by_scheduler = true

/-- A concrete check sequence for the C1 witness. -/
def gateOps : List Op := [.checkTemp 100 20, .checkTemp 101 40, .checkTemp 102 20]

/-- The recovery rule does not carry the pause action (true of the default
rule set); under it, a pause action can only come from _trigger_pause. -/
def recoveryNoPause (s : DeviceState) : Prop :=
  ∀ r ∈ s.rules, r.id = "all_normal_start" → r.action ≠ "pause"

/-- A fresh device on which set_production_plan(target = 10, auto_stop =
true) was called at t = 0. -/
def planState : DeviceState :=
  (setProductionPlan (initState "dev") 0 10 true none).1

/-- The plan installed on planState. -/
def planOf10 : ProductionPlan :=
  { device_id := "dev", target_count := 10, start_time := some 0,
    end_time := none, auto_stop_on_complete := true, auto_switch_mode := none }

/-- The production rule of planState (threshold_max pushed to 10, enabled). -/
def prodRuleAfterPlan : ScheduleRule :=
  { id := "production_complete", name := "产量达标自动停止", enabled := true,
    rule_type := "production", condition := "gte",
    threshold_min := 0, threshold_max := 10, action := "stop",
    action_params := [], cooldown := 5, last_triggered := 0 }

/-- A fresh device on which set_production_plan(target = 3, auto_stop =
true) was called at t = 0. -/
def negPlanState : DeviceState :=
  (setProductionPlan (initState "dev") 0 3 true none).1

/-! ### Basic lemmas about rule lookup and in-place rule update -/

theorem getRule_id {rules : List ScheduleRule} {rid : String} {r : ScheduleRule}
    (h : getRule rules rid = some r) : r.id = rid := by
  have hp := List.find?_some h
  simpa using hp

theorem getRule_mem {rules : List ScheduleRule} {rid : String} {r : ScheduleRule}
    (h : getRule rules rid = some r) : r ∈ rules :=
  List.mem_of_find?_eq_some h

theorem mem_updateFirstRule {rules : List ScheduleRule} {rid : String}
    {f : ScheduleRule → ScheduleRule} {r' : ScheduleRule}
    (h : r' ∈ updateFirstRule rules rid f) : r' ∈ rules ∨ ∃ r ∈ rules, r' = f r := by
  induction rules with
  | nil => simp [updateFirstRule] at h
  | cons r rest ih =>
    rw [updateFirstRule] at h
    by_cases hid : (r.id == rid) = true
    · rw [if_pos hid] at h
      rcases List.mem_cons.mp h with h1 | h1
      · exact Or.inr ⟨r, List.mem_cons_self r rest, h1⟩
      · exact Or.inl (List.mem_cons_of_mem _ h1)
    · rw [if_neg hid] at h
      rcases List.mem_cons.mp h with h1 | h1
      · exact Or.inl (h1 ▸ List.mem_cons_self r rest)
      · rcases ih h1 with h2 | ⟨r0, hr0, he⟩
        · exact Or.inl (List.mem_cons_of_mem _ h2)
        · exact Or.inr ⟨r0, List.mem_cons_of_mem _ hr0, he⟩

theorem getRule_updateFirstRule_self (f : ScheduleRule → ScheduleRule)
    {rules : List ScheduleRule} {rid : String} (hf : ∀ r, (f r).id = r.id) :
    getRule (updateFirstRule rules rid f) rid = (getRule rules rid).map f := by
  induction rules with
  | nil => simp [updateFirstRule, getRule]
  | cons r rest ih =>
    rw [updateFirstRule]
    by_cases hid : (r.id == rid) = true
    · rw [if_pos hid]
      have hfid : ((f r).id == rid) = true := by rw [hf r]; exact hid
      simp [getRule, List.find?, hfid, hid]
    · rw [if_neg hid]
      have hid' : (r.id == rid) = false := by simpa using hid
      simp only [getRule, List.find?] at ih ⊢
      rw [hid']
      simpa using ih

theorem getRule_updateFirstRule_ne (f : ScheduleRule → ScheduleRule)
    {rules : List ScheduleRule} {rid rid' : String} (hf : ∀ r, (f r).id = r.id)
    (hne : rid' ≠ rid) :
    getRule (updateFirstRule rules rid f) rid' = getRule rules rid' := by
  induction rules with
  | nil => simp [updateFirstRule]
  | cons r rest ih =>
    rw [updateFirstRule]
    by_cases hid : (r.id == rid) = true
    · rw [if_pos hid]
      have hr : r.id = rid := by simpa using hid
      have h1 : ((f r).id == rid') = false := by
        simp [hf r, hr]
        exact fun h => hne h.symm
      have h2 : (r.id == rid') = false := by
        simp [hr]
        exact fun h => hne h.symm
      simp only [getRule, List.find?]
      rw [h1, h2]
    · rw [if_neg hid]
      simp only [getRule, List.find?] at ih ⊢
      by_cases h2 : (r.id == rid') = true
      · rw [h2]
      · rw [Bool.not_eq_true] at h2
        rw [h2]
        simpa using ih

theorem if_true_else_eq_or (c : Prop) [Decidable c] (b : Bool) :
    (if c then true else b) = (decide c || b) := by
  by_cases h : c <;> simp [h]

/-! ### Case analysis of _check_all_normal and the check functions -/

theorem checkAllNormal_cases (s : DeviceState) (now : ℚ) :
    checkAllNormal s now = (s, none) ∨
    (s.paused_by_scheduler = true ∧ s.temp_out_of_range = false ∧
     s.humidity_out_of_range = false ∧ s.pressure_out_of_range = false ∧
     ∃ rule, getRule s.rules "all_normal_start" = some rule ∧ rule.enabled = true ∧
       ¬ (now - rule.last_triggered < rule.cooldown) ∧
       checkAllNormal s now = (resumedState s now, some (resumeActionOf rule))) := by
  unfold checkAllNormal
  dsimp only
  rw [if_true_else_eq_or, if_true_else_eq_or, if_true_else_eq_or]
  split
  · exact Or.inl rfl
  next hp =>
    split
    · exact Or.inl rfl
    next rule heq =>
      split
      · exact Or.inl rfl
      next hen =>
        split
        · exact Or.inl rfl
        next hcd =>
          split
          · exact Or.inl rfl
          next hout =>
            split
            · exact Or.inl rfl
            next hstable =>
              have hout' : s.temp_out_of_range = false ∧
                  s.humidity_out_of_range = false ∧
                  s.pressure_out_of_range = false := by
                simp only [Bool.or_eq_true, not_or, Bool.not_eq_true] at hout
                exact ⟨hout.1.1, hout.1.2, hout.2⟩
              refine Or.inr ⟨by simpa using hp, hout'.1, hout'.2.1, hout'.2.2,
                rule, heq, by simpa using hen, hcd, rfl⟩

theorem triggerPause_eq (s : DeviceState) (rule : ScheduleRule) (reason : String)
    (pt : String) :
    triggerPause s rule reason pt =
      ({ s with pause_reasons := (if s.pause_reasons.contains reason
                                    then s.pause_reasons
                                    else s.pause_reasons ++ [reason])
                paused_by_scheduler := true },
       some { rule_id := rule.id, rule_name := rule.name, action := rule.action,
              params := rule.action_params, reason := reason,
              param_type := some pt }) := by
  by_cases h : reason ∈ s.pause_reasons <;> simp [triggerPause, h]

theorem checkTemperature_eq (s : DeviceState) (now v : ℚ) :
    checkTemperature s now v = checkAllNormal (tempEntry s v) now ∨
    (s.temp_out_of_range = false ∧
     isOutOfRangeVal v (tempMinOf s) (tempMaxOf s) = true ∧
     ∃ rule, getRule s.rules "temp_danger_pause" = some rule ∧ rule.enabled = true ∧
       ¬ (now - rule.last_triggered < rule.cooldown) ∧
       checkTemperature s now v =
         triggerPause { tempEntry s v with
             rules := (updateFirstRule s.rules "temp_danger_pause"
               (fun r => { r with last_triggered := now })) } rule
           (tempReason v (tempMinOf s) (tempMaxOf s)) "temperature") := by
  unfold checkTemperature
  dsimp only
  split
  · exact Or.inl rfl
  next rule heq =>
    split
    · exact Or.inl rfl
    next hen =>
      split
      · exact Or.inl rfl
      next hcd =>
        split
        next hedge =>
          simp only [Bool.and_eq_true, Bool.not_eq_true'] at hedge
          exact Or.inr ⟨hedge.2, hedge.1, rule, by simpa using heq,
            by simpa using hen, hcd, rfl⟩
        · exact Or.inl rfl

theorem checkHumidity_eq (s : DeviceState) (now v : ℚ) :
    checkHumidity s now v = checkAllNormal (humidityEntry s v) now ∨
    (s.humidity_out_of_range = false ∧
     isOutOfRangeVal v (humidityMinOf s) (humidityMaxOf s) = true ∧
     ∃ rule, getRule s.rules "humidity_danger_pause" = some rule ∧ rule.enabled = true ∧
       ¬ (now - rule.last_triggered < rule.cooldown) ∧
       checkHumidity s now v =
         triggerPause { humidityEntry s v with
             rules := (updateFirstRule s.rules "humidity_danger_pause"
               (fun r => { r with last_triggered := now })) } rule
           (humidityReason v (humidityMinOf s) (humidityMaxOf s)) "humidity") := by
  unfold checkHumidity
  dsimp only
  split
  · exact Or.inl rfl
  next rule heq =>
    split
    · exact Or.inl rfl
    next hen =>
      split
      · exact Or.inl rfl
      next hcd =>
        split
        next hedge =>
          simp only [Bool.and_eq_true, Bool.not_eq_true'] at hedge
          exact Or.inr ⟨hedge.2, hedge.1, rule, by simpa using heq,
            by simpa using hen, hcd, rfl⟩
        · exact Or.inl rfl

theorem checkPressure_eq (s : DeviceState) (now v : ℚ) :
    checkPressure s now v = checkAllNormal (pressureEntry s v) now ∨
    (s.pressure_out_of_range = false ∧
     isOutOfRangeVal v (pressureMinOf s) (pressureMaxOf s) = true ∧
     ∃ rule, getRule s.rules "pressure_danger_pause" = some rule ∧ rule.enabled = true ∧
       ¬ (now - rule.last_triggered < rule.cooldown) ∧
       checkPressure s now v =
         triggerPause { pressureEntry s v with
             rules := (updateFirstRule s.rules "pressure_danger_pause"
               (fun r => { r with last_triggered := now })) } rule
           (pressureReason v (pressureMinOf s) (pressureMaxOf s)) "pressure") := by
  unfold checkPressure
  dsimp only
  split
  · exact Or.inl rfl
  next rule heq =>
    split
    · exact Or.inl rfl
    next hen =>
      split
      · exact Or.inl rfl
      next hcd =>
        split
        next hedge =>
          simp only [Bool.and_eq_true, Bool.not_eq_true'] at hedge
          exact Or.inr ⟨hedge.2, hedge.1, rule, by simpa using heq,
            by simpa using hen, hcd, rfl⟩
        · exact Or.inl rfl

theorem checkProduction_cases (s : DeviceState) (now : ℚ) (c : Int) :
    checkProduction s now c = (s, none) ∨
    (∃ plan rule, s.plan = some plan ∧ 0 < plan.target_count ∧
      getRule s.rules "production_complete" = some rule ∧ rule.enabled = true ∧
      ¬ (now - rule.last_triggered < rule.cooldown) ∧ plan.target_count ≤ c ∧
      checkProduction s now c =
        ({ s with rules := (updateFirstRule s.rules "production_complete"
             (fun r => { r with last_triggered := now })) },
         some (match plan.auto_switch_mode with
               | some m =>
                 if m = "" then
                   { rule_id := rule.id, rule_name := rule.name,
                     action := if plan.auto_stop_on_complete then "stop" else "none",
                     params := [], reason := prodReason c plan.target_count }
                 else
                   { rule_id := rule.id, rule_name := rule.name,
                     action := "switch_mode", params := [("mode", m)],
                     reason := prodReason c plan.target_count }
               | none =>
                 { rule_id := rule.id, rule_name := rule.name,
                   action := if plan.auto_stop_on_complete then "stop" else "none",
                   params := [], reason := prodReason c plan.target_count }))) := by
  unfold checkProduction
  dsimp only
  split
  · exact Or.inl rfl
  next plan hplan =>
    split
    · exact Or.inl rfl
    next htc =>
      split
      · exact Or.inl rfl
      next rule heq =>
        split
        · exact Or.inl rfl
        next hen =>
          split
          · exact Or.inl rfl
          next hcd =>
            split
            next hge =>
              refine Or.inr ⟨plan, rule, hplan, by omega, heq,
                by simpa using hen, hcd, by omega, ?_⟩
              cases hm : plan.auto_switch_mode with
              | none => simp [hm]
              | some m =>
                by_cases hms : m = "" <;> simp [hm, hms]
            · exact Or.inl rfl

/-! ### C3: stability-gated autonomous resume -/

/-- Characterization of the autonomous-resume branch of _check_all_normal:
it fires exactly when the device is scheduler-paused, the recovery rule
exists, is enabled and off cooldown, no metric is flagged out of range, and
every metric has either an empty history or _is_stable_normal true. -/
theorem checkAllNormal_isSome_iff (s : DeviceState) (now : ℚ) :
    ((checkAllNormal s now).2).isSome = true ↔
      (s.paused_by_scheduler = true ∧
       (∃ rule, getRule s.rules "all_normal_start" = some rule ∧ rule.enabled = true ∧
          ¬ (now - rule.last_triggered < rule.cooldown)) ∧
       s.temp_out_of_range = false ∧ s.humidity_out_of_range = false ∧
       s.pressure_out_of_range = false ∧
       (s.temp_history = [] ∨
         isStableNormal s.temp_history (tempMinOf s) (tempMaxOf s) = true) ∧
       (s.humidity_history = [] ∨
         isStableNormal s.humidity_history (humidityMinOf s) (humidityMaxOf s) = true) ∧
       (s.pressure_history = [] ∨
         isStableNormal s.pressure_history (pressureMinOf s) (pressureMaxOf s) = true)) := by
  unfold checkAllNormal
  dsimp only
  rw [if_true_else_eq_or, if_true_else_eq_or, if_true_else_eq_or]
  constructor
  · intro h
    split at h
    · simp at h
    next hp =>
      split at h
      · simp at h
      next rule heq =>
        split at h
        · simp at h
        next hen =>
          split at h
          · simp at h
          next hcd =>
            split at h
            · simp at h
            next hout =>
              split at h
              · simp at h
              next hst =>
                have hout' : s.temp_out_of_range = false ∧
                    s.humidity_out_of_range = false ∧
                    s.pressure_out_of_range = false := by
                  simp only [Bool.or_eq_true, not_or, Bool.not_eq_true] at hout
                  exact ⟨hout.1.1, hout.1.2, hout.2⟩
                simp only [Bool.not_eq_true', Bool.not_eq_false, Bool.and_eq_true,
                  Bool.or_eq_true, decide_eq_true_eq, beq_iff_eq,
                  List.length_eq_zero] at hst
                exact ⟨by simpa using hp, ⟨rule, heq, by simpa using hen, hcd⟩,
                  hout'.1, hout'.2.1, hout'.2.2,
                  hst.1.1.imp id (by intro hh; exact hh),
                  hst.1.2.imp id (by intro hh; exact hh),
                  hst.2.imp id (by intro hh; exact hh)⟩
  · rintro ⟨hp, ⟨rule, heq, hen, hcd⟩, h1, h2, h3, h4, h5, h6⟩
    simp only [tempMinOf, tempMaxOf] at h4
    simp only [humidityMinOf, humidityMaxOf] at h5
    simp only [pressureMinOf, pressureMaxOf] at h6
    simp [hp, heq, hen, hcd, h1, h2, h3]
    rw [if_neg]
    · simp
    · rintro ((⟨ha, hb⟩ | ⟨ha, hb⟩) | ⟨ha, hb⟩)
      · rcases h4 with hh | hh
        · exact ha hh
        · rw [hh] at hb; simp at hb
      · rcases h5 with hh | hh
        · exact ha hh
        · rw [hh] at hb; simp at hb
      · rcases h6 with hh | hh
        · exact ha hh
        · rw [hh] at hb; simp at hb

/-- C3 (amended claim): for a scheduler-paused device the autonomous resume
fires exactly when the recovery rule exists, is enabled and off cooldown, no
metric is flagged out of range, and every metric either has an empty history
or has at least 3 recorded entries whose last 3 all lie in the thresholds; a
metric with 1 or 2 recorded entries blocks the resume, since
_is_stable_normal is false below 3 entries and only a zero-length history is
overridden to normal. -/
theorem resume_fires_iff (s : DeviceState) (now : ℚ) :
    ((checkAllNormal s now).2).isSome = true ↔
      (s.paused_by_scheduler = true ∧
       (∃ rule, getRule s.rules "all_normal_start" = some rule ∧ rule.enabled = true ∧
          ¬ (now - rule.last_triggered < rule.cooldown)) ∧
       s.temp_out_of_range = false ∧ s.humidity_out_of_range = false ∧
       s.pressure_out_of_range = false ∧
       (s.temp_history = [] ∨
         isStableNormal s.temp_history (tempMinOf s) (tempMaxOf s) = true) ∧
       (s.humidity_history = [] ∨
         isStableNormal s.humidity_history (humidityMinOf s) (humidityMaxOf s) = true) ∧
       (s.pressure_history = [] ∨
         isStableNormal s.pressure_history (pressureMinOf s) (pressureMaxOf s) = true)) :=
  checkAllNormal_isSome_iff s now

/-- C3 (counterexample): at shortHistState every premise of the claim holds
for the in-range reading check_temperature(now = 100, value = 20) — the
device is scheduler-paused, no metric is flagged out of range, the only
metric with at least 3 recorded entries (temperature, after the append) has
its last 3 in range, and humidity has exactly one recorded in-range entry —
yet the call emits no action at all: a metric with 1 or 2 entries blocks the
resume, contradicting the claim that fewer than 3 entries is treated as
satisfying the stability condition. -/
theorem resume_blocked_by_short_history :
    shortHistState.paused_by_scheduler = true ∧
    shortHistState.humidity_history = [50] ∧
    (50:ℚ) ≥ humidityMinOf shortHistState ∧ (50:ℚ) ≤ humidityMaxOf shortHistState ∧
    shortHistState.temp_out_of_range = false ∧
    shortHistState.humidity_out_of_range = false ∧
    shortHistState.pressure_out_of_range = false ∧
    shortHistState.pressure_history = [] ∧
    isStableNormal (addHistory shortHistState.temp_history 20)
      (tempMinOf shortHistState) (tempMaxOf shortHistState) = true ∧
    (checkTemperature shortHistState 100 20).2 = none := by
  refine ⟨rfl, rfl, by decide, by decide, rfl, rfl, rfl, rfl, by decide, ?_⟩
  have hns : ¬ (((checkAllNormal (tempEntry shortHistState 20) 100).2).isSome = true) := by
    rw [checkAllNormal_isSome_iff]
    rintro ⟨-, -, -, -, -, -, h5, -⟩
    rcases h5 with hh | hh
    · exact absurd hh (by decide)
    · exact absurd hh (by decide)
  rcases checkTemperature_eq shortHistState 100 20 with he | ⟨-, hout, -⟩
  · rw [he]
    rcases ho : (checkAllNormal (tempEntry shortHistState 20) 100).2 with _ | a
    · rfl
    · exact absurd (by rw [ho]; rfl) hns
  · exact absurd hout (by decide)

/-! ### C4: per-rule cooldown gate -/

theorem checkAllNormal_fire_gate (st : DeviceState) {now : ℚ} {s' : DeviceState}
    {a : SchedAction} (h : checkAllNormal st now = (s', some a)) :
    ∃ r, getRule st.rules a.rule_id = some r ∧
      ¬ (now - r.last_triggered < r.cooldown) ∧
      getRule s'.rules a.rule_id = some { r with last_triggered := now } := by
  rcases checkAllNormal_cases st now with hc | ⟨-, -, -, -, rule, hg, -, hcd, hfire⟩
  · rw [hc] at h
    simp at h
  · have he := h.symm.trans hfire
    simp only [Prod.mk.injEq, Option.some.injEq] at he
    obtain ⟨hs', ha⟩ := he
    have hid : rule.id = "all_normal_start" := getRule_id hg
    have haid : a.rule_id = rule.id := by rw [ha]; rfl
    refine ⟨rule, ?_, hcd, ?_⟩
    · rw [haid, hid]
      exact hg
    · rw [haid, hid, hs']
      show getRule (updateFirstRule st.rules "all_normal_start" _) "all_normal_start" = _
      rw [getRule_updateFirstRule_self
        (fun r => { r with last_triggered := now }) (fun r => rfl), hg]
      simp [hid]

/-- C4: a check call fires a rule only when the call's wall-clock instant is
at least cooldown seconds past the rule's last_triggered, and the firing
stamps last_triggered to that instant; hence two consecutive firings of the
same rule are at least its cooldown apart, and a call arriving less than
cooldown seconds after last_triggered does not fire the rule. -/
theorem rule_cooldown_gate :
    ∀ (s : DeviceState) (op : Op) (s' : DeviceState) (a : SchedAction),
      op.isCheck = true → step s op = (s', some a) →
      ∃ r, getRule s.rules a.rule_id = some r ∧
        ¬ (op.time - r.last_triggered < r.cooldown) ∧
        getRule s'.rules a.rule_id = some { r with last_triggered := op.time } := by
  intro s op s' a hop h
  cases op with
  | checkTemp now v =>
    dsimp only [step] at h
    dsimp only [Op.time]
    rcases checkTemperature_eq s now v with he | ⟨-, -, rule, hg, -, hcd, hfire⟩
    · rw [he] at h
      exact checkAllNormal_fire_gate (tempEntry s v) h
    · rw [hfire, triggerPause_eq] at h
      simp only [Prod.mk.injEq, Option.some.injEq] at h
      obtain ⟨hs', ha⟩ := h
      have hid : rule.id = "temp_danger_pause" := getRule_id hg
      have haid : a.rule_id = rule.id := by rw [← ha]
      refine ⟨rule, ?_, hcd, ?_⟩
      · rw [haid, hid]
        exact hg
      · rw [haid, hid, ← hs']
        show getRule (updateFirstRule s.rules "temp_danger_pause" _) "temp_danger_pause" = _
        rw [getRule_updateFirstRule_self
          (fun r => { r with last_triggered := now }) (fun r => rfl), hg]
        simp [hid]
  | checkHum now v =>
    dsimp only [step] at h
    dsimp only [Op.time]
    rcases checkHumidity_eq s now v with he | ⟨-, -, rule, hg, -, hcd, hfire⟩
    · rw [he] at h
      exact checkAllNormal_fire_gate (humidityEntry s v) h
    · rw [hfire, triggerPause_eq] at h
      simp only [Prod.mk.injEq, Option.some.injEq] at h
      obtain ⟨hs', ha⟩ := h
      have hid : rule.id = "humidity_danger_pause" := getRule_id hg
      have haid : a.rule_id = rule.id := by rw [← ha]
      refine ⟨rule, ?_, hcd, ?_⟩
      · rw [haid, hid]
        exact hg
      · rw [haid, hid, ← hs']
        show getRule (updateFirstRule s.rules "humidity_danger_pause" _) "humidity_danger_pause" = _
        rw [getRule_updateFirstRule_self
          (fun r => { r with last_triggered := now }) (fun r => rfl), hg]
        simp [hid]
  | checkPress now v =>
    dsimp only [step] at h
    dsimp only [Op.time]
    rcases checkPressure_eq s now v with he | ⟨-, -, rule, hg, -, hcd, hfire⟩
    · rw [he] at h
      exact checkAllNormal_fire_gate (pressureEntry s v) h
    · rw [hfire, triggerPause_eq] at h
      simp only [Prod.mk.injEq, Option.some.injEq] at h
      obtain ⟨hs', ha⟩ := h
      have hid : rule.id = "pressure_danger_pause" := getRule_id hg
      have haid : a.rule_id = rule.id := by rw [← ha]
      refine ⟨rule, ?_, hcd, ?_⟩
      · rw [haid, hid]
        exact hg
      · rw [haid, hid, ← hs']
        show getRule (updateFirstRule s.rules "pressure_danger_pause" _) "pressure_danger_pause" = _
        rw [getRule_updateFirstRule_self
          (fun r => { r with last_triggered := now }) (fun r => rfl), hg]
        simp [hid]
  | checkProd now c =>
    dsimp only [step] at h
    dsimp only [Op.time]
    rcases checkProduction_cases s now c with hc | ⟨plan, rule, -, -, hg, -, hcd, -, hfire⟩
    · rw [hc] at h
      simp at h
    · have he := h.symm.trans hfire
      simp only [Prod.mk.injEq, Option.some.injEq] at he
      obtain ⟨hs', ha⟩ := he
      have hid : rule.id = "production_complete" := getRule_id hg
      have haid : a.rule_id = rule.id := by
        rw [ha]
        cases plan.auto_switch_mode with
        | none => rfl
        | some m => by_cases hm : m = "" <;> simp [hm]
      refine ⟨rule, ?_, hcd, ?_⟩
      · rw [haid, hid]
        exact hg
      · rw [haid, hid, hs']
        show getRule (updateFirstRule s.rules "production_complete" _) "production_complete" = _
        rw [getRule_updateFirstRule_self
          (fun r => { r with last_triggered := now }) (fun r => rfl), hg]
        simp [hid]
  | clearPause => simp [Op.isCheck] at hop
  | setThresholds t => simp [Op.isCheck] at hop
  | patchRule rid p => simp [Op.isCheck] at hop
  | setPlan now tc st m => simp [Op.isCheck] at hop
  | clearPlan => simp [Op.isCheck] at hop

/-- C4 witness: on a fresh device, check_temperature at t = 100 with value
40 fires the temperature rule; the gate theorem applies with every
hypothesis discharged at this concrete input. -/
theorem rule_cooldown_gate_witness :
    ∃ r, getRule (initState "dev").rules cdwAction.rule_id = some r ∧
      ¬ ((Op.checkTemp 100 40).time - r.last_triggered < r.cooldown) ∧
      getRule ((step (initState "dev") (Op.checkTemp 100 40)).1).rules cdwAction.rule_id =
        some { r with last_triggered := (Op.checkTemp 100 40).time } :=
  rule_cooldown_gate (initState "dev") (Op.checkTemp 100 40)
    (step (initState "dev") (Op.checkTemp 100 40)).1 cdwAction rfl
    (Prod.ext_iff.mpr ⟨rfl, by
      norm_num [step, checkTemperature, initState, defaultRules, getRule,
        addHistory, isOutOfRangeVal, triggerPause, checkAllNormal,
        updateFirstRule, List.find?, cdwAction]⟩)

/-! ### C1: the resume gate -/

theorem noStart_updateFirstRule {rules : List ScheduleRule} {rid : String}
    {f : ScheduleRule → ScheduleRule}
    (hf : ∀ r, (f r).id = r.id ∧ (f r).action = r.action)
    (h : ∀ r ∈ rules, (r.id = "temp_danger_pause" ∨ r.id = "humidity_danger_pause" ∨
      r.id = "pressure_danger_pause") → r.action ≠ "start") :
    ∀ r ∈ updateFirstRule rules rid f,
      (r.id = "temp_danger_pause" ∨ r.id = "humidity_danger_pause" ∨
       r.id = "pressure_danger_pause") → r.action ≠ "start" := by
  intro r' hr' hid
  rcases mem_updateFirstRule hr' with hm | ⟨r0, hr0, he⟩
  · exact h r' hm hid
  · subst he
    rw [(hf r0).2]
    apply h r0 hr0
    rw [← (hf r0).1]
    exact hid

theorem check_step_gate {s : DeviceState} {op : Op}
    (henv : envRulesNoStart s) (hop : op.isEnvCheck = true) :
    (∀ a, (step s op).2 = some a → a.action = "start" →
      s.paused_by_scheduler = true) ∧
    envRulesNoStart (step s op).1 := by
  cases op with
  | checkTemp now v =>
    dsimp only [step]
    rcases checkTemperature_eq s now v with he | ⟨-, -, rule, hg, -, -, hfire⟩
    · rw [he]
      rcases checkAllNormal_cases (tempEntry s v) now with
        hc | ⟨hpause, -, -, -, rule, hg2, -, -, hfire2⟩
      · rw [hc]
        exact ⟨fun a ha => by simp at ha, henv⟩
      · rw [hfire2]
        refine ⟨fun a ha hstart => hpause, ?_⟩
        exact noStart_updateFirstRule (fun r => ⟨rfl, rfl⟩) henv
    · rw [hfire, triggerPause_eq]
      constructor
      · intro a ha hstart
        exfalso
        simp only [Option.some.injEq] at ha
        apply henv rule (getRule_mem hg) (Or.inl (getRule_id hg))
        rw [← ha] at hstart
        exact hstart
      · exact noStart_updateFirstRule (fun r => ⟨rfl, rfl⟩) henv
  | checkHum now v =>
    dsimp only [step]
    rcases checkHumidity_eq s now v with he | ⟨-, -, rule, hg, -, -, hfire⟩
    · rw [he]
      rcases checkAllNormal_cases (humidityEntry s v) now with
        hc | ⟨hpause, -, -, -, rule, hg2, -, -, hfire2⟩
      · rw [hc]
        exact ⟨fun a ha => by simp at ha, henv⟩
      · rw [hfire2]
        refine ⟨fun a ha hstart => hpause, ?_⟩
        exact noStart_updateFirstRule (fun r => ⟨rfl, rfl⟩) henv
    · rw [hfire, triggerPause_eq]
      constructor
      · intro a ha hstart
        exfalso
        simp only [Option.some.injEq] at ha
        apply henv rule (getRule_mem hg) (Or.inr (Or.inl (getRule_id hg)))
        rw [← ha] at hstart
        exact hstart
      · exact noStart_updateFirstRule (fun r => ⟨rfl, rfl⟩) henv
  | checkPress now v =>
    dsimp only [step]
    rcases checkPressure_eq s now v with he | ⟨-, -, rule, hg, -, -, hfire⟩
    · rw [he]
      rcases checkAllNormal_cases (pressureEntry s v) now with
        hc | ⟨hpause, -, -, -, rule, hg2, -, -, hfire2⟩
      · rw [hc]
        exact ⟨fun a ha => by simp at ha, henv⟩
      · rw [hfire2]
        refine ⟨fun a ha hstart => hpause, ?_⟩
        exact noStart_updateFirstRule (fun r => ⟨rfl, rfl⟩) henv
    · rw [hfire, triggerPause_eq]
      constructor
      · intro a ha hstart
        exfalso
        simp only [Option.some.injEq] at ha
        apply henv rule (getRule_mem hg) (Or.inr (Or.inr (getRule_id hg)))
        rw [← ha] at hstart
        exact hstart
      · exact noStart_updateFirstRule (fun r => ⟨rfl, rfl⟩) henv
  | checkProd now c => simp [Op.isEnvCheck] at hop
  | clearPause => simp [Op.isEnvCheck] at hop
  | setThresholds t => simp [Op.isEnvCheck] at hop
  | patchRule rid p => simp [Op.isEnvCheck] at hop
  | setPlan now tc st m => simp [Op.isEnvCheck] at hop
  | clearPlan => simp [Op.isEnvCheck] at hop

theorem startGated_of_envRules (ops : List Op) :
    ∀ s : DeviceState, envRulesNoStart s →
      (∀ op ∈ ops, op.isEnvCheck = true) → startGated s ops := by
  induction ops with
  | nil =>
    intro s _ _ p hp
    simp [runTrace] at hp
  | cons op ops ih =>
    intro s henv hops p hp a hpa ha
    rw [runTrace] at hp
    rcases List.mem_cons.mp hp with hp1 | hp1
    · subst hp1
      exact (check_step_gate henv (hops op (List.mem_cons_self op ops))).1 a hpa ha
    · exact ih (step s op).1
        (check_step_gate henv (hops op (List.mem_cons_self op ops))).2
        (fun o ho => hops o (List.mem_cons_of_mem _ ho)) p hp1 a hpa ha

/-- C1: over any sequence of environmental check calls starting right after
clear_scheduler_pause, a start action is emitted at a step only if the state
entering that step has paused_by_scheduler true; since clear_scheduler_pause
resets the flag, no check emits a start until some earlier check has set the
flag back to true by triggering a pause, regardless of the sensor values
fed in.  (The hypothesis envRulesNoStart holds for the default rule set:
the environmental pause rules do not carry the start action.) -/
theorem scheduler_resume_gate (s : DeviceState) (ops : List Op)
    (henv : envRulesNoStart s) (hops : ∀ op ∈ ops, op.isEnvCheck = true) :
    startGated (clearSchedulerPause s) ops :=
  startGated_of_envRules ops (clearSchedulerPause s) henv hops

/-- C1 witness: a fresh device, cleared, then three temperature checks (in
range, out of range, in range). -/
theorem scheduler_resume_gate_witness :
    startGated (clearSchedulerPause (initState "dev")) gateOps :=
  scheduler_resume_gate (initState "dev") gateOps
    (by unfold envRulesNoStart; decide) (by decide)

/-! ### C2: edge-triggered pause -/

/-- C2: for each metric, a check call emits a pause action only on the
transition was_out = false to is_out = true (first detection of going out of
range), and once such a pause has fired, an immediately following check call
with the same (still out-of-range) value emits nothing at all — in
particular no pause action — whatever the elapsed time (so also within the
cooldown window).  The hypothesis recoveryNoPause (true of the default rule
set) rules out a patched recovery rule whose action string is pause. -/
theorem edge_triggered_pause (s : DeviceState) (now now' v : ℚ)
    (hrec : recoveryNoPause s) :
    (∀ s' a, checkTemperature s now v = (s', some a) → a.action = "pause" →
       s.temp_out_of_range = false ∧
       isOutOfRangeVal v (tempMinOf s) (tempMaxOf s) = true ∧
       (checkTemperature s' now' v).2 = none) ∧
    (∀ s' a, checkHumidity s now v = (s', some a) → a.action = "pause" →
       s.humidity_out_of_range = false ∧
       isOutOfRangeVal v (humidityMinOf s) (humidityMaxOf s) = true ∧
       (checkHumidity s' now' v).2 = none) ∧
    (∀ s' a, checkPressure s now v = (s', some a) → a.action = "pause" →
       s.pressure_out_of_range = false ∧
       isOutOfRangeVal v (pressureMinOf s) (pressureMaxOf s) = true ∧
       (checkPressure s' now' v).2 = none) := by
  refine ⟨?_, ?_, ?_⟩
  · intro s' a h ha
    rcases checkTemperature_eq s now v with he | ⟨hfl, hout, rule, hg, -, -, hfire⟩
    · rw [he] at h
      rcases checkAllNormal_cases (tempEntry s v) now with hc | ⟨-, -, -, -, rule2, hg2, -, -, hfire2⟩
      · rw [hc] at h
        simp at h
      · exfalso
        have he2 := h.symm.trans hfire2
        simp only [Prod.mk.injEq, Option.some.injEq] at he2
        apply hrec rule2 (getRule_mem hg2) (getRule_id hg2)
        rw [← show a.action = rule2.action from by rw [he2.2]; rfl]
        exact ha
    · rw [hfire, triggerPause_eq] at h
      simp only [Prod.mk.injEq, Option.some.injEq] at h
      obtain ⟨hX, -⟩ := h
      subst hX
      refine ⟨hfl, hout, ?_⟩
      rcases checkTemperature_eq _ now' v with he2 | ⟨hfl2, -, -, -, -, -, -⟩
      · rw [he2]
        rcases checkAllNormal_cases (tempEntry _ v) now' with hc2 | ⟨-, hf2, -, -, -, -, -, -, -⟩
        · rw [hc2]
        · exfalso
          have : isOutOfRangeVal v (tempMinOf s) (tempMaxOf s) = false := hf2
          rw [hout] at this
          simp at this
      · exfalso
        have : isOutOfRangeVal v (tempMinOf s) (tempMaxOf s) = false := hfl2
        rw [hout] at this
        simp at this
  · intro s' a h ha
    rcases checkHumidity_eq s now v with he | ⟨hfl, hout, rule, hg, -, -, hfire⟩
    · rw [he] at h
      rcases checkAllNormal_cases (humidityEntry s v) now with hc | ⟨-, -, -, -, rule2, hg2, -, -, hfire2⟩
      · rw [hc] at h
        simp at h
      · exfalso
        have he2 := h.symm.trans hfire2
        simp only [Prod.mk.injEq, Option.some.injEq] at he2
        apply hrec rule2 (getRule_mem hg2) (getRule_id hg2)
        rw [← show a.action = rule2.action from by rw [he2.2]; rfl]
        exact ha
    · rw [hfire, triggerPause_eq] at h
      simp only [Prod.mk.injEq, Option.some.injEq] at h
      obtain ⟨hX, -⟩ := h
      subst hX
      refine ⟨hfl, hout, ?_⟩
      rcases checkHumidity_eq _ now' v with he2 | ⟨hfl2, -, -, -, -, -, -⟩
      · rw [he2]
        rcases checkAllNormal_cases (humidityEntry _ v) now' with hc2 | ⟨-, -, hf2, -, -, -, -, -, -⟩
        · rw [hc2]
        · exfalso
          have : isOutOfRangeVal v (humidityMinOf s) (humidityMaxOf s) = false := hf2
          rw [hout] at this
          simp at this
      · exfalso
        have : isOutOfRangeVal v (humidityMinOf s) (humidityMaxOf s) = false := hfl2
        rw [hout] at this
        simp at this
  · intro s' a h ha
    rcases checkPressure_eq s now v with he | ⟨hfl, hout, rule, hg, -, -, hfire⟩
    · rw [he] at h
      rcases checkAllNormal_cases (pressureEntry s v) now with hc | ⟨-, -, -, -, rule2, hg2, -, -, hfire2⟩
      · rw [hc] at h
        simp at h
      · exfalso
        have he2 := h.symm.trans hfire2
        simp only [Prod.mk.injEq, Option.some.injEq] at he2
        apply hrec rule2 (getRule_mem hg2) (getRule_id hg2)
        rw [← show a.action = rule2.action from by rw [he2.2]; rfl]
        exact ha
    · rw [hfire, triggerPause_eq] at h
      simp only [Prod.mk.injEq, Option.some.injEq] at h
      obtain ⟨hX, -⟩ := h
      subst hX
      refine ⟨hfl, hout, ?_⟩
      rcases checkPressure_eq _ now' v with he2 | ⟨hfl2, -, -, -, -, -, -⟩
      · rw [he2]
        rcases checkAllNormal_cases (pressureEntry _ v) now' with hc2 | ⟨-, -, -, hf2, -, -, -, -, -⟩
        · rw [hc2]
        · exfalso
          have : isOutOfRangeVal v (pressureMinOf s) (pressureMaxOf s) = false := hf2
          rw [hout] at this
          simp at this
      · exfalso
        have : isOutOfRangeVal v (pressureMinOf s) (pressureMaxOf s) = false := hfl2
        rw [hout] at this
        simp at this

/-- C2 witness: on a fresh device, check_temperature at t = 100 with the out
of range value 40 fires the pause; the immediately following check at t =
101 (inside the 10-second cooldown window) with the same value 40 emits
nothing. -/
theorem edge_triggered_pause_witness :
    (initState "dev").temp_out_of_range = false ∧
    isOutOfRangeVal 40 (tempMinOf (initState "dev")) (tempMaxOf (initState "dev")) = true ∧
    (checkTemperature (checkTemperature (initState "dev") 100 40).1 101 40).2 = none :=
  (edge_triggered_pause (initState "dev") 100 101 40
      (by unfold recoveryNoPause; decide)).1
    (checkTemperature (initState "dev") 100 40).1 cdwAction
    (Prod.ext_iff.mpr ⟨rfl, by
      norm_num [checkTemperature, initState, defaultRules, getRule, addHistory,
        isOutOfRangeVal, triggerPause, checkAllNormal, updateFirstRule,
        List.find?, cdwAction]⟩)
    rfl

/-! ### C7: update_rule -/

theorem applyPatch_filter_known (patch : List PatchField) (r : ScheduleRule) :
    (patch.filter PatchField.isKnown).foldl applyPatchField r =
      patch.foldl applyPatchField r := by
  induction patch generalizing r with
  | nil => rfl
  | cons p ps ih =>
    cases p <;> simp [List.filter, applyPatchField, PatchField.isKnown, ih]

/-- C7: update_rule with an unknown rule id returns failure and leaves the
whole device state unchanged; with a known rule id it returns success and
changes only the rules list, applying exactly the recognized fields of the
patch (entries whose key is not a dataclass attribute are skipped by the
hasattr guard) to the first rule with that id. -/
theorem updateRule_spec (s : DeviceState) (rid : String) (patch : List PatchField) :
    (getRule s.rules rid = none → updateRule s rid patch = (s, false)) ∧
    (getRule s.rules rid ≠ none →
      (updateRule s rid patch).2 = true ∧
      (updateRule s rid patch).1 =
        { s with rules := (updateFirstRule s.rules rid
            (fun r => (patch.filter PatchField.isKnown).foldl applyPatchField r)) }) := by
  constructor
  · intro h
    unfold updateRule
    rw [h]
  · intro h
    rcases hg : getRule s.rules rid with _ | r
    · exact absurd hg h
    · unfold updateRule
      rw [hg]
      refine ⟨rfl, ?_⟩
      simp only [applyPatch_filter_known]

/-- C7 witness: on a fresh device, update_rule with the unknown id
nonexistent and a patch disabling the rule fails and mutates nothing; with
the known id temp_danger_pause the same patch succeeds. -/
theorem updateRule_spec_witness :
    updateRule (initState "dev") "nonexistent" [PatchField.enabled false] =
      (initState "dev", false) ∧
    (updateRule (initState "dev") "temp_danger_pause" [PatchField.enabled false]).2 = true :=
  ⟨(updateRule_spec (initState "dev") "nonexistent" [PatchField.enabled false]).1
      (by decide),
   ((updateRule_spec (initState "dev") "temp_danger_pause" [PatchField.enabled false]).2
      (by decide)).1⟩

/-! ### C8: production-target firing -/

/-- C8: with an active plan (target_count positive), the production rule
enabled and its cooldown elapsed, check_production at a count that reaches
the target stamps the rule's last_triggered to the call instant and emits
exactly one action: stop when auto_stop_on_complete and none otherwise,
overridden to switch_mode with the mode parameter when auto_switch_mode is
set (a non-empty string — Python truthiness); any further call before the
cooldown elapses, even with a higher count, emits nothing. -/
theorem production_target_fires (s : DeviceState) (now : ℚ) (c : Int)
    (plan : ProductionPlan) (rule : ScheduleRule)
    (hplan : s.plan = some plan) (htc : 0 < plan.target_count)
    (hrule : getRule s.rules "production_complete" = some rule)
    (hen : rule.enabled = true)
    (hcd : ¬ (now - rule.last_triggered < rule.cooldown))
    (hge : plan.target_count ≤ c) :
    ∃ a, (checkProduction s now c).2 = some a ∧
      getRule ((checkProduction s now c).1).rules "production_complete" =
        some { rule with last_triggered := now } ∧
      a.rule_id = rule.id ∧
      a.action = (match plan.auto_switch_mode with
                  | some m => if m = "" then
                      (if plan.auto_stop_on_complete then "stop" else "none")
                    else "switch_mode"
                  | none => if plan.auto_stop_on_complete then "stop" else "none") ∧
      a.params = (match plan.auto_switch_mode with
                  | some m => if m = "" then ([] : List (String × String))
                              else [("mode", m)]
                  | none => []) ∧
      ∀ (now' : ℚ) (c' : Int), c ≤ c' → now' - now < rule.cooldown →
        (checkProduction ((checkProduction s now c).1) now' c').2 = none := by
  have hstep : checkProduction s now c =
      ({ s with rules := (updateFirstRule s.rules "production_complete"
           (fun r => { r with last_triggered := now })) },
       some (match plan.auto_switch_mode with
             | some m =>
               if m = "" then
                 { rule_id := rule.id, rule_name := rule.name,
                   action := if plan.auto_stop_on_complete then "stop" else "none",
                   params := [], reason := prodReason c plan.target_count }
               else
                 { rule_id := rule.id, rule_name := rule.name,
                   action := "switch_mode", params := [("mode", m)],
                   reason := prodReason c plan.target_count }
             | none =>
               { rule_id := rule.id, rule_name := rule.name,
                 action := if plan.auto_stop_on_complete then "stop" else "none",
                 params := [], reason := prodReason c plan.target_count })) := by
    unfold checkProduction
    rw [hplan]
    dsimp only
    rw [if_neg (by omega), hrule]
    dsimp only
    rw [if_neg (by simp [hen]), if_neg hcd, if_pos (by omega)]
  refine ⟨_, by rw [hstep], ?_, ?_, ?_, ?_, ?_⟩
  · rw [hstep]
    show getRule (updateFirstRule s.rules "production_complete" _) "production_complete" = _
    rw [getRule_updateFirstRule_self
      (fun r => { r with last_triggered := now }) (fun r => rfl), hrule]
    rfl
  · cases plan.auto_switch_mode with
    | none => rfl
    | some m => by_cases hm : m = "" <;> simp [hm]
  · cases plan.auto_switch_mode with
    | none => rfl
    | some m => by_cases hm : m = "" <;> simp [hm]
  · cases plan.auto_switch_mode with
    | none => rfl
    | some m => by_cases hm : m = "" <;> simp [hm]
  · intro now' c' hc' hcw
    rw [hstep]
    unfold checkProduction
    dsimp only
    rw [hplan]
    dsimp only
    rw [if_neg (by omega)]
    rw [getRule_updateFirstRule_self
      (fun r => { r with last_triggered := now }) (fun r => rfl), hrule]
    simp only [Option.map_some']
    rw [if_neg (by simp [hen]), if_pos (by exact hcw)]

/-- C8 witness: plan target 10 set at t = 0, check_production at t = 100
with count 10 emits the stop action; a later call at t = 101 with count 12
is inside the 5-second cooldown and emits nothing. -/
theorem production_target_fires_witness :
    ∃ a, (checkProduction planState 100 10).2 = some a ∧
      getRule ((checkProduction planState 100 10).1).rules "production_complete" =
        some { prodRuleAfterPlan with last_triggered := 100 } ∧
      a.rule_id = prodRuleAfterPlan.id ∧
      a.action = (match planOf10.auto_switch_mode with
                  | some m => if m = "" then
                      (if planOf10.auto_stop_on_complete then "stop" else "none")
                    else "switch_mode"
                  | none => if planOf10.auto_stop_on_complete then "stop" else "none") ∧
      a.params = (match planOf10.auto_switch_mode with
                  | some m => if m = "" then ([] : List (String × String))
                              else [("mode", m)]
                  | none => []) ∧
      ∀ (now' : ℚ) (c' : Int), 10 ≤ c' → now' - 100 < prodRuleAfterPlan.cooldown →
        (checkProduction ((checkProduction planState 100 10).1) now' c').2 = none :=
  production_target_fires planState 100 10 planOf10 prodRuleAfterPlan
    (by decide) (by decide) (by decide) rfl (by norm_num [prodRuleAfterPlan])
    (by decide)

/-! ### C5: the ETA division -/

/-- C5: get_plan_progress called at the very instant the plan was created
(elapsed = 0) with a positive count and progress below 100 reaches
rate = current_count / elapsed with a zero divisor: in Python this raises
ZeroDivisionError instead of returning estimated_time = None.  The embedded
function yields .error () on exactly that path. -/
theorem plan_progress_div_by_zero :
    getPlanProgress planState 0 5 = .error () := by
  have hp : planState.plan = some planOf10 := by decide
  unfold getPlanProgress
  rw [hp]
  dsimp only
  rw [if_neg (by norm_num [planOf10])]
  have hst : planOf10.start_time = some 0 := rfl
  rw [hst]
  dsimp only
  rw [if_pos (by constructor <;> norm_num [planOf10])]
  rw [if_pos (by norm_num)]

/-! ### C9: plan progress -/

theorem pyRound_bounds (x : ℚ) : ⌊x⌋ ≤ pyRound x ∧ pyRound x ≤ ⌊x⌋ + 1 := by
  unfold pyRound
  dsimp only
  split_ifs <;> omega

theorem pyRound_mono {x y : ℚ} (h : x ≤ y) : pyRound x ≤ pyRound y := by
  rcases lt_or_eq_of_le (Int.floor_le_floor h) with hf | hf
  · have h1 := (pyRound_bounds x).2
    have h2 := (pyRound_bounds y).1
    omega
  · unfold pyRound
    dsimp only
    rw [← hf]
    split_ifs <;> first | omega | (exfalso; linarith)

theorem round1_mono {x y : ℚ} (h : x ≤ y) : round1 x ≤ round1 y := by
  unfold round1
  have h1 : pyRound (10 * x) ≤ pyRound (10 * y) := pyRound_mono (by linarith)
  have h2 : ((pyRound (10 * x) : ℚ)) ≤ ((pyRound (10 * y) : ℚ)) := by
    exact_mod_cast h1
  linarith

theorem round1_zero : round1 0 = 0 := by
  unfold round1 pyRound
  norm_num

theorem round1_hundred : round1 100 = 100 := by
  unfold round1 pyRound
  have hf : ⌊(10 * 100 : ℚ)⌋ = 1000 := by
    norm_num
  rw [hf]
  norm_num

theorem getPlanProgress_ok_fields {s : DeviceState} {now : ℚ} {c : Int}
    {p : ProductionPlan} {r : PlanProgress}
    (hp : s.plan = some p) (htc : 0 < p.target_count)
    (h : getPlanProgress s now c = .ok r) :
    r.has_plan = true ∧ r.target = p.target_count ∧ r.current = c ∧
    r.remaining = max 0 (p.target_count - c) ∧
    r.progress = round1 (min 100 (((c : ℚ) / (p.target_count : ℚ)) * 100)) := by
  unfold getPlanProgress at h
  rw [hp] at h
  dsimp only at h
  rw [if_neg (by omega)] at h
  cases hst : p.start_time with
  | none =>
    rw [hst] at h
    dsimp only at h
    simp only [Except.ok.injEq] at h
    subst h
    exact ⟨rfl, rfl, rfl, rfl, rfl⟩
  | some st =>
    rw [hst] at h
    dsimp only at h
    split at h
    · split at h
      · exact absurd h (by simp)
      · simp only [Except.ok.injEq] at h
        subst h
        exact ⟨rfl, rfl, rfl, rfl, rfl⟩
    · simp only [Except.ok.injEq] at h
      subst h
      exact ⟨rfl, rfl, rfl, rfl, rfl⟩

/-- C9 (amended): with no plan, get_plan_progress returns has_plan = false,
progress = 0, remaining = 0 and no estimate; with a plan of positive target
every successful call returns progress = round(min(100, 100·current/target), 1)
(the source rounds to one decimal), which lies in [0, 100] whenever
current_count is non-negative and is non-decreasing in current_count — but
it is not clamped below 0: a negative current_count yields a negative
progress (see the counterexample). -/
theorem plan_progress_formula (s : DeviceState) (now : ℚ) (c : Int) :
    (s.plan = none →
      getPlanProgress s now c =
        .ok { has_plan := false, target := 0, current := c, progress := 0,
              remaining := 0, estimated_time := none }) ∧
    (∀ p, s.plan = some p → 0 < p.target_count →
      (∀ r, getPlanProgress s now c = .ok r →
        r.has_plan = true ∧ r.target = p.target_count ∧ r.current = c ∧
        r.remaining = max 0 (p.target_count - c) ∧
        r.progress = round1 (min 100 (((c : ℚ) / (p.target_count : ℚ)) * 100)) ∧
        (0 ≤ c → 0 ≤ r.progress ∧ r.progress ≤ 100)) ∧
      (∀ c2 r r2, c ≤ c2 → getPlanProgress s now c = .ok r →
        getPlanProgress s now c2 = .ok r2 → r.progress ≤ r2.progress)) := by
  refine ⟨?_, ?_⟩
  · intro hp
    unfold getPlanProgress
    rw [hp]
  · intro p hp htc
    have ht0 : (0:ℚ) < (p.target_count : ℚ) := by exact_mod_cast htc
    constructor
    · intro r hr
      obtain ⟨h1, h2, h3, h4, h5⟩ := getPlanProgress_ok_fields hp htc hr
      refine ⟨h1, h2, h3, h4, h5, ?_⟩
      intro hc
      have hx0 : (0:ℚ) ≤ min 100 (((c : ℚ) / (p.target_count : ℚ)) * 100) := by
        apply le_min (by norm_num)
        apply mul_nonneg _ (by norm_num)
        apply div_nonneg _ (le_of_lt ht0)
        exact_mod_cast hc
      have hx100 : min 100 (((c : ℚ) / (p.target_count : ℚ)) * 100) ≤ 100 :=
        min_le_left _ _
      have b1 := round1_mono hx0
      have b2 := round1_mono hx100
      rw [round1_zero] at b1
      rw [round1_hundred] at b2
      rw [h5]
      exact ⟨b1, b2⟩
    · intro c2 r r2 hcc hr hr2
      obtain ⟨-, -, -, -, h5⟩ := getPlanProgress_ok_fields hp htc hr
      obtain ⟨-, -, -, -, h5'⟩ := getPlanProgress_ok_fields hp htc hr2
      rw [h5, h5']
      apply round1_mono
      have hcast : (c:ℚ) ≤ (c2:ℚ) := by exact_mod_cast hcc
      gcongr

/-- C9 (counterexample): with a plan of target 3 and current_count = -1,
get_plan_progress returns progress = -33.3: the value is negative (the
min(100, ·) formula only clamps from above, never to the claimed 0–100
range) and it differs from the claimed exact value min(100, 100·(-1)/3) =
-100/3 because the source rounds to one decimal. -/
theorem plan_progress_negative :
    getPlanProgress negPlanState 5 (-1) =
      .ok { has_plan := true, target := 3, current := -1, progress := -(333/10),
            remaining := 4, estimated_time := none } ∧
    (-(333/10) : ℚ) < 0 ∧
    (-(333/10) : ℚ) ≠ min 100 (((-1 : ℚ) / 3) * 100) := by
  have hmin : min (100:ℚ) (((-1:ℚ)) / 3 * 100) = -100/3 := by
    rw [min_eq_right] <;> norm_num
  have hf : ⌊(10 * (-100/3) : ℚ)⌋ = -334 := by
    rw [Int.floor_eq_iff]
    norm_num
  have hr1 : round1 (-100/3 : ℚ) = -(333/10) := by
    unfold round1 pyRound
    rw [hf]
    rw [if_neg (by push_cast; norm_num), if_pos (by push_cast; norm_num)]
    norm_num
  refine ⟨?_, by norm_num, by rw [hmin]; norm_num⟩
  have hp : negPlanState.plan = some
      { device_id := "dev", target_count := 3, start_time := some 0,
        end_time := none, auto_stop_on_complete := true,
        auto_switch_mode := none } := by decide
  unfold getPlanProgress
  rw [hp]
  dsimp only
  rw [if_neg (by norm_num)]
  rw [if_neg (by norm_num)]
  push_cast
  rw [hmin, hr1]
  norm_num

/-- C9 witness: a device with no plan reports has_plan = false, progress 0,
remaining 0 and no estimate. -/
theorem plan_progress_formula_witness :
    getPlanProgress (initState "dev2") 5 7 =
      .ok { has_plan := false, target := 0, current := 7, progress := 0,
            remaining := 0, estimated_time := none } :=
  (plan_progress_formula (initState "dev2") 5 7).1 rfl

/-! ### C6: callback failures -/

theorem triggerPauseExc_fst (b : Bool) (s : DeviceState) (rule : ScheduleRule)
    (reason pt : String) :
    (triggerPauseExc b s rule reason pt).1 = (triggerPause s rule reason pt).1 := by
  unfold triggerPauseExc triggerPause
  dsimp only
  cases b <;> rfl

theorem checkAllNormalExc_fst (b : Bool) (s : DeviceState) (now : ℚ) :
    (checkAllNormalExc b s now).1 = (checkAllNormal s now).1 := by
  unfold checkAllNormalExc checkAllNormal
  dsimp only
  rw [if_true_else_eq_or, if_true_else_eq_or, if_true_else_eq_or]
  split
  · rfl
  · split
    · rfl
    · split
      · rfl
      · split
        · rfl
        · split
          · rfl
          · split
            · rfl
            · cases b <;> rfl

theorem checkTemperatureExc_fst (b : Bool) (s : DeviceState) (now v : ℚ) :
    (checkTemperatureExc b s now v).1 = (checkTemperature s now v).1 := by
  unfold checkTemperatureExc checkTemperature
  dsimp only
  split
  · exact checkAllNormalExc_fst b _ now
  · split
    · exact checkAllNormalExc_fst b _ now
    · split
      · exact checkAllNormalExc_fst b _ now
      · split
        · exact triggerPauseExc_fst b _ _ _ _
        · exact checkAllNormalExc_fst b _ now

theorem checkHumidityExc_fst (b : Bool) (s : DeviceState) (now v : ℚ) :
    (checkHumidityExc b s now v).1 = (checkHumidity s now v).1 := by
  unfold checkHumidityExc checkHumidity
  dsimp only
  split
  · exact checkAllNormalExc_fst b _ now
  · split
    · exact checkAllNormalExc_fst b _ now
    · split
      · exact checkAllNormalExc_fst b _ now
      · split
        · exact triggerPauseExc_fst b _ _ _ _
        · exact checkAllNormalExc_fst b _ now

theorem checkPressureExc_fst (b : Bool) (s : DeviceState) (now v : ℚ) :
    (checkPressureExc b s now v).1 = (checkPressure s now v).1 := by
  unfold checkPressureExc checkPressure
  dsimp only
  split
  · exact checkAllNormalExc_fst b _ now
  · split
    · exact checkAllNormalExc_fst b _ now
    · split
      · exact checkAllNormalExc_fst b _ now
      · split
        · exact triggerPauseExc_fst b _ _ _ _
        · exact checkAllNormalExc_fst b _ now

theorem checkProductionExc_fst (b : Bool) (s : DeviceState) (now : ℚ) (c : Int) :
    (checkProductionExc b s now c).1 = (checkProduction s now c).1 := by
  unfold checkProductionExc checkProduction
  dsimp only
  split
  · rfl
  · split
    · rfl
    · split
      · rfl
      · split
        · rfl
        · split
          · rfl
          · split
            · cases b <;> rfl
            · rfl

/-- C6 (amended): if the registered callback raises, the scheduler leaves
the per-device state exactly as a successful call would — every mutation of
pause_reasons, paused_by_scheduler, out-of-range flags, histories and rule
timestamps happens before the callback is awaited — but the exception is
not caught at the dispatch: it propagates out of the check call (see the
counterexample). -/
theorem callback_failure_state_preserved (s : DeviceState) (now v : ℚ) (c : Int) :
    (checkTemperatureExc true s now v).1 = (checkTemperatureExc false s now v).1 ∧
    (checkHumidityExc true s now v).1 = (checkHumidityExc false s now v).1 ∧
    (checkPressureExc true s now v).1 = (checkPressureExc false s now v).1 ∧
    (checkProductionExc true s now c).1 = (checkProductionExc false s now c).1 :=
  ⟨(checkTemperatureExc_fst true s now v).trans (checkTemperatureExc_fst false s now v).symm,
   (checkHumidityExc_fst true s now v).trans (checkHumidityExc_fst false s now v).symm,
   (checkPressureExc_fst true s now v).trans (checkPressureExc_fst false s now v).symm,
   (checkProductionExc_fst true s now c).trans (checkProductionExc_fst false s now c).symm⟩

/-- C6 (counterexample): a raising callback makes check_temperature itself
raise — the await of the callback sits in the dispatch path with no
try/except, so the exception escapes the check call instead of being caught
and logged inside it: at a fresh device and the out-of-range reading 40 at
t = 100 the embedded call yields .error (). -/
theorem callback_exception_escapes :
    (checkTemperatureExc true (initState "dev") 100 40).2 = .error () := by
  norm_num [checkTemperatureExc, initState, defaultRules, getRule, addHistory,
    isOutOfRangeVal, triggerPauseExc, checkAllNormalExc, updateFirstRule,
    List.find?]

/-! ### C10: pause_reasons never holds duplicates -/

theorem triggerPause_reasons_nodup (s : DeviceState) (rule : ScheduleRule)
    (reason pt : String) (h : s.pause_reasons.Nodup) :
    ((triggerPause s rule reason pt).1).pause_reasons.Nodup := by
  rw [triggerPause_eq]
  dsimp only
  split
  · exact h
  next hmem =>
    have hni : reason ∉ s.pause_reasons := by simpa using hmem
    rw [List.nodup_append]
    refine ⟨h, List.nodup_singleton _, ?_⟩
    intro a ha hb
    rw [List.mem_singleton] at hb
    subst hb
    exact hni ha

/-- C10: the list pause_reasons of a device never contains the same reason
twice: it starts empty at init_device, a pause trigger appends its reason
only when absent, the autonomous resume and clear_scheduler_pause reset it
to empty, and every other scheduler operation leaves it untouched — so
Nodup is an invariant of every operation. -/
theorem pause_reasons_nodup_invariant :
    (∀ d, ((initState d).pause_reasons).Nodup) ∧
    (∀ (s : DeviceState) (op : Op), s.pause_reasons.Nodup →
      (((step s op).1).pause_reasons).Nodup) := by
  refine ⟨fun d => List.nodup_nil, ?_⟩
  intro s op h
  cases op with
  | checkTemp now v =>
    dsimp only [step]
    rcases checkTemperature_eq s now v with he | ⟨-, -, rule, -, -, -, hfire⟩
    · rw [he]
      rcases checkAllNormal_cases (tempEntry s v) now with
        hc | ⟨-, -, -, -, rule2, -, -, -, hfire2⟩
      · rw [hc]
        exact h
      · rw [hfire2]
        exact List.nodup_nil
    · rw [hfire]
      exact triggerPause_reasons_nodup _ rule _ _ h
  | checkHum now v =>
    dsimp only [step]
    rcases checkHumidity_eq s now v with he | ⟨-, -, rule, -, -, -, hfire⟩
    · rw [he]
      rcases checkAllNormal_cases (humidityEntry s v) now with
        hc | ⟨-, -, -, -, rule2, -, -, -, hfire2⟩
      · rw [hc]
        exact h
      · rw [hfire2]
        exact List.nodup_nil
    · rw [hfire]
      exact triggerPause_reasons_nodup _ rule _ _ h
  | checkPress now v =>
    dsimp only [step]
    rcases checkPressure_eq s now v with he | ⟨-, -, rule, -, -, -, hfire⟩
    · rw [he]
      rcases checkAllNormal_cases (pressureEntry s v) now with
        hc | ⟨-, -, -, -, rule2, -, -, -, hfire2⟩
      · rw [hc]
        exact h
      · rw [hfire2]
        exact List.nodup_nil
    · rw [hfire]
      exact triggerPause_reasons_nodup _ rule _ _ h
  | checkProd now c =>
    dsimp only [step]
    rcases checkProduction_cases s now c with hc | ⟨plan, rule, h1, h2, h3, h4, h5, h6, hfire⟩
    · rw [hc]
      exact h
    · rw [hfire]
      exact h
  | clearPause => exact List.nodup_nil
  | setThresholds t => exact h
  | patchRule rid p =>
    dsimp only [step]
    unfold updateRule
    split
    · exact h
    · exact h
  | setPlan now tc st m => exact h
  | clearPlan => exact h

/-- C10 witness: the invariant applied to a fresh device and a pause-firing
temperature check. -/
theorem pause_reasons_nodup_invariant_witness :
    (((step (initState "dev") (Op.checkTemp 100 40)).1).pause_reasons).Nodup :=
  pause_reasons_nodup_invariant.2 (initState "dev") (Op.checkTemp 100 40)
    (by decide)
